import Mathlib

/-!
Shallow embedding of the Nexus legal-message classifier
(src/app/schemas.py, src/app/resources.py, src/app/config.py,
src/app/classifier.py, src/app/main.py) together with proofs about it.

Strings are modelled by Lean strings; where the Python code works on the
text character by character (lower-casing, substring containment,
whitespace stripping) the model works on the underlying character list.
Python case mappings are modelled on the Basic Latin and Latin-1
Supplement ranges (which cover every character of the keyword Knowledge
Base and of the category labels); characters outside these ranges are
mapped to themselves.
-/

/-- Categories of src/app/schemas.py (CategoryEnum), in definition order. -/
inductive CategoryEnum where
  | PROCESSUAL
  | FINANCEIRO
  | SUPORTE
  | COMERCIAL
  | ADMINISTRATIVO
  | OUTROS
deriving DecidableEq, Repr

/-- String value of each category, as in src/app/schemas.py. -/
def CategoryEnum.value : CategoryEnum → String
  | .PROCESSUAL => "Processual"
  | .FINANCEIRO => "Financeiro"
  | .SUPORTE => "Suporte Técnico"
  | .COMERCIAL => "Comercial"
  | .ADMINISTRATIVO => "Administrativo"
  | .OUTROS => "Outros"

/-- Iteration order of the Python enum (its definition order). -/
def CategoryEnum.all : List CategoryEnum :=
  [.PROCESSUAL, .FINANCEIRO, .SUPORTE, .COMERCIAL, .ADMINISTRATIVO, .OUTROS]

/-- Response record of src/app/schemas.py (ClassificationResponse). -/
structure ClassificationResponse where
  category : CategoryEnum
  reasoning : String
  model : String
  strategy : String
deriving DecidableEq, Repr

/-- Auxiliary check that the first list is an initial segment of the second. -/
def leadsList : List Char → List Char → Bool
  | [], _ => true
  | _ :: _, [] => false
  | a :: as, b :: bs => a == b && leadsList as bs

/-- Substring containment on character lists: models the Python test
`needle in hay` on strings (contiguous-subsequence containment). -/
def isSubstr (needle hay : List Char) : Bool :=
  match hay with
  | [] => leadsList needle []
  | _ :: bs => leadsList needle hay || isSubstr needle bs

/-- Simple lower-case mapping on Unicode code points, as performed by
Python str.lower on the Basic Latin and Latin-1 Supplement ranges
(A-Z, À-Þ except the multiplication sign, and Ÿ); every other code point
is left unchanged. -/
def lowerCode (n : Nat) : Nat :=
  if 65 ≤ n ∧ n ≤ 90 then n + 32
  else if (192 ≤ n ∧ n ≤ 222) ∧ n ≠ 215 then n + 32
  else if n = 376 then 255
  else n

/-- Lower-case a character, via lowerCode. -/
def pyCharLower (c : Char) : Char :=
  Char.ofNat (lowerCode c.toNat)

/-- Model of Python str.lower on the underlying character list. -/
def pyLower (l : List Char) : List Char :=
  l.map pyCharLower

/-- Model of Python str.lower returning a string. -/
def pyLowerStr (s : String) : String :=
  ⟨pyLower s.data⟩

/-- Knowledge Base of src/app/resources.py (KEYWORDS), in the insertion
order of the Python dict, which is its iteration order. -/
def KEYWORDS : List (CategoryEnum × List String) :=
  [ (.FINANCEIRO,
      ["boleto", "pagar", "pagamento", "valor", "honorários",
       "custas", "fatura", "dinheiro", "reembolso", "nota fiscal",
       "cobrança", "débito", "crédito", "transferência", "depósito",
       "juros", "multa", "taxa", "investimento", "orçamento",
       "custo", "despesa", "receita", "lucro", "prejuízo"]),
    (.PROCESSUAL,
      ["prazo", "juiz", "audiência", "processo", "liminar",
       "sentença", "recurso", "intimação", "vara", "autos", "dje",
       "apelação", "agravado", "agravante", "juizado", "tribunal",
       "petição", "defesa", "réu", "autor", "sentenciado",
       "moção", "mandado", "citação", "contestação", "execução"]),
    (.SUPORTE,
      ["senha", "login", "acesso", "sistema", "erro", "bug",
       "entrar", "site", "nexus", "indisponível", "offline",
       "problema técnico", "não funciona", "travado", "lento",
       "recuperar senha", "resetar", "autenticação", "permissão",
       "crash", "falha", "conexão", "servidor down", "manutenção"]),
    (.COMERCIAL,
      ["proposta", "orçamento", "contratar", "nova causa",
       "parceria", "apresentação", "reunião comercial", "cliente novo",
       "negócio", "venda", "contrato", "acordo", "oportunidade",
       "consultoria", "projeto", "licitação", "fornecedor", "cliente",
       "prospecção", "oferta", "desconto", "cancelamento", "contratação"]),
    (.ADMINISTRATIVO,
      ["agendar", "sala", "reunião", "cópia", "digitalizar",
       "documento", "certidão", "cartório", "motoboy", "correio",
       "agendamento", "recurso", "material", "logística", "secretária",
       "arquivos", "impressão", "scaneamento", "protocolo", "pasta",
       "solicitação", "administrativo", "gerencial", "coordenação", "organização"]) ]

/-- Number of terms of a category occurring in the lowered text: models
the line `matches = sum(1 for term in terms if term in text_lower)` of
Classifier._heuristic_classify. Each term contributes at most 1. -/
def countMatches (terms : List String) (text_lower : List Char) : Nat :=
  terms.countP (fun term => isSubstr term.data text_lower)

/-- The selection loop of Classifier._heuristic_classify: a fold over the
Knowledge Base carrying (best_category, max_matches), updating only on a
strictly greater match count. -/
def scanFrom (text_lower : List Char) :
    List (CategoryEnum × List String) → CategoryEnum × Nat → CategoryEnum × Nat
  | [], acc => acc
  | p :: kb, acc =>
      scanFrom text_lower kb
        (if acc.2 < countMatches p.2 text_lower then (p.1, countMatches p.2 text_lower) else acc)

/-- Largest match count over a Knowledge Base. -/
def maxScore (text_lower : List Char) (kb : List (CategoryEnum × List String)) : Nat :=
  (kb.map (fun p => countMatches p.2 text_lower)).foldr max 0

/-- Model of Classifier._heuristic_classify of src/app/classifier.py.
Total by construction, mirroring the Python function, which raises no
exception on any string input. -/
def heuristic_classify (text reason : String) : ClassificationResponse :=
  let text_lower := pyLower text.data
  let best := scanFrom text_lower KEYWORDS (CategoryEnum.OUTROS, 0)
  let final_reason :=
    if 0 < best.2 then
      reason ++ " Identificados " ++ toString best.2 ++ " termos chave utilizando heurísticas."
    else
      reason ++ " Nenhum termo chave relevante identificado utilizando heurísticas."
  { category := best.1
    reasoning := final_reason
    model := "Keywords-Heuristic"
    strategy := "Fallback-Heuristic" }

/-- Remote endpoint URL of src/app/config.py (Settings.GROQ_URL). -/
def GROQ_URL : String := "https://api.groq.com/openai/v1/chat/completions"

/-- Remote model name of src/app/config.py (Settings.GROQ_MODEL). -/
def GROQ_MODEL : String := "llama-3.3-70b-versatile"

/-- Category resolution of Classifier._call_groq_llm: first member of the
enum whose value matches the returned string case-insensitively, with
CategoryEnum.OUTROS as the default of the exhausted search. -/
def groqCategoryFromString (cat_str : String) : CategoryEnum :=
  (CategoryEnum.all.find? (fun c => pyLowerStr c.value == pyLowerStr cat_str)).getD
    CategoryEnum.OUTROS

/-- Result construction of Classifier._call_groq_llm from a successfully
parsed JSON content object: the optional arguments are the values of the
keys category and reasoning (content.get with defaults). -/
def parseGroqContent (category reasoning : Option String) : ClassificationResponse :=
  { category := groqCategoryFromString (category.getD "Outros")
    reasoning := reasoning.getD "Classificação via IA"
    model := GROQ_MODEL
    strategy := "LLM (Groq)" }

/-- Chat message of the request payload of Classifier._call_groq_llm. -/
structure GroqMessage where
  role : String
  content : String
deriving DecidableEq, Repr

/-- Single outgoing HTTP request of Classifier._call_groq_llm: the payload
fields, the headers and the transport parameters of the client.post call. -/
structure GroqRequest where
  url : String
  payload_model : String
  messages : List GroqMessage
  temperature : Rat
  response_format_type : String
  headers : List (String × String)
  timeout : Rat
deriving DecidableEq, Repr

/-- Rendered system prompt: SYSTEM_PROMPT_TEMPLATE of src/app/resources.py
after Python str.format substituted the categories field and unescaped the
doubled braces of the few-shot examples into literal braces. -/
def SYSTEM_PROMPT_TEMPLATE_rendered (categories : String) : String :=
  "\nVocê é um classificador jurídico especializado do sistema Nexus. Sua tarefa é analisar a mensagem do usuário e classificá-la em uma das seguintes categorias, baseando-se no **contexto e intenção**, não apenas em palavras isoladas.\n\nCATEGORIAS:\n"
  ++ "1. **Processual**: Assuntos relacionados a processos judiciais, prazos, audiências, decisões, recursos, liminares, andamento processual.\n"
  ++ "2. **Financeiro**: Assuntos de pagamento, custas processuais, honorários, cobranças, faturas, reembolsos, fluxo de caixa.\n"
  ++ "3. **Suporte Técnico**: Problemas técnicos, acesso ao sistema, erros, bugs, autenticação, performance, indisponibilidade.\n"
  ++ "4. **Comercial**: Novos negócios, propostas comerciais, parcerias, prospecção de clientes, contratos, licitações.\n"
  ++ "5. **Administrativo**: Agendamentos, solicitação de documentos, logística, organização de recursos, secretaria.\n"
  ++ "6. **Outros**: Mensagens genéricas, saudações ou que não se encaixam nas categorias acima.\n\nEXEMPLOS (Few-Shot):\n"
  ++ "- Entrada: \"Qual o prazo para recurso de apelação neste processo?\"\n  Saída: \x7b\"category\": \"Processual\", \"reasoning\": \"Questão sobre prazo e recurso processual\"\x7d\n\n"
  ++ "- Entrada: \"Preciso de uma cópia do processo, pode encaminhar por email?\"\n  Saída: \x7b\"category\": \"Administrativo\", \"reasoning\": \"Solicitação de documento e logística de entrega\"\x7d\n\n"
  ++ "- Entrada: \"A tela está congelada, não consigo fazer login no sistema\"\n  Saída: \x7b\"category\": \"Suporte Técnico\", \"reasoning\": \"Problema técnico de acesso ao sistema\"\x7d\n\n"
  ++ "- Entrada: \"Gostaria de receber uma proposta para novos casos de direito trabalhista\"\n  Saída: \x7b\"category\": \"Comercial\", \"reasoning\": \"Interesse em novo negócio/contrato\"\x7d\n\n"
  ++ "- Entrada: \"Qual é o valor das custas processuais deste caso?\"\n  Saída: \x7b\"category\": \"Financeiro\", \"reasoning\": \"Questão sobre valores e custas processuais\"\x7d\n\n"
  ++ "INSTRUÇÕES:\n- Analise o CONTEXTO e a INTENÇÃO da mensagem, não apenas palavras-chave isoladas\n"
  ++ "- Uma mensagem pode conter múltiplas palavras-chave, mas classifique pela intenção principal do usuário\n"
  ++ "- Seja consistente e lógico na classificação\n"
  ++ "- Retorne SEMPRE um JSON válido com as chaves \x27category\x27 (nome exato da categoria) e \x27reasoning\x27 (breve explicação)\n\n"
  ++ "CATEGORIAS DISPONÍVEIS: " ++ categories ++ "\n\nAgora, classifique a mensagem do usuário:\n"

/-- Request built by Classifier._call_groq_llm for a given api key and
input text: the categories list joined with a comma separator, the
rendered system prompt, the two chat messages, temperature 0.2, JSON
response format, bearer-token headers and the 8 second timeout. -/
def buildGroqRequest (api_key text : String) : GroqRequest :=
  let categories_list := String.intercalate ", " (CategoryEnum.all.map CategoryEnum.value)
  let formatted_system_prompt := SYSTEM_PROMPT_TEMPLATE_rendered categories_list
  { url := GROQ_URL
    payload_model := GROQ_MODEL
    messages := [⟨"system", formatted_system_prompt⟩, ⟨"user", text⟩]
    temperature := 0.2
    response_format_type := "json_object"
    headers := [("Authorization", "Bearer " ++ api_key), ("Content-Type", "application/json")]
    timeout := 8 }

/-- Requests issued by one call of Classifier._call_groq_llm: the function
body performs exactly one client.post and no retry. -/
def groqRequestTrace (api_key text : String) : List GroqRequest :=
  [buildGroqRequest api_key text]

/-- Outcome of the remote call attempted by Classifier.classify, the error
taxonomy being the exception classes distinguished by its handlers:
httpx.HTTPStatusError carrying the response status code, and every other
exception (timeout, transport fault, malformed payload, anything else)
collapsed by the bare `except Exception` handler, here carried with a
description of no further significance. -/
inductive RemoteOutcome where
  | success (resp : ClassificationResponse)
  | httpStatusError (status_code : Nat)
  | otherFailure (description : String)
deriving DecidableEq, Repr

/-- Model of Classifier.classify of src/app/classifier.py: the orchestrator
dispatching on the configured api key (settings.GROQ_API_KEY, empty when
absent) and on the outcome of the remote call. -/
def classify (groq_api_key : String) (remote : RemoteOutcome) (text : String) :
    ClassificationResponse :=
  if groq_api_key = "" then
    heuristic_classify text "API Key do Groq não configurada. Fallback com heurística local ativado."
  else
    match remote with
    | .success resp => resp
    | .httpStatusError code =>
        heuristic_classify text ("Erro HTTP na IA (" ++ toString code ++ ").")
    | .otherFailure _ =>
        heuristic_classify text "Indisponibilidade momentânea da IA."

/-- Whitespace test of Python str.strip: the Unicode whitespace code
points stripped by Python (ASCII control whitespace, space, next line,
no-break space, ogham space mark, the general punctuation spaces, line
and paragraph separators, narrow no-break space, medium mathematical
space and ideographic space). -/
def isPySpace (c : Char) : Bool :=
  decide ((9 ≤ c.toNat ∧ c.toNat ≤ 13) ∨ (28 ≤ c.toNat ∧ c.toNat ≤ 31) ∨ c.toNat = 32
    ∨ c.toNat = 133 ∨ c.toNat = 160 ∨ c.toNat = 5760 ∨ (8192 ≤ c.toNat ∧ c.toNat ≤ 8202)
    ∨ c.toNat = 8232 ∨ c.toNat = 8233 ∨ c.toNat = 8239 ∨ c.toNat = 8287 ∨ c.toNat = 12288)

/-- Model of Python str.strip on the character list: leading and trailing
whitespace removed. -/
def pyStrip (l : List Char) : List Char :=
  ((l.dropWhile isPySpace).reverse.dropWhile isPySpace).reverse

/-- Result of the /classify endpoint handler: a successful response or an
HTTPException with its status code and detail. -/
inductive EndpointResult where
  | ok (resp : ClassificationResponse)
  | httpError (status_code : Nat) (detail : String)
deriving DecidableEq, Repr

/-- Model of the classify_text handler of src/app/main.py, after the
pydantic length validation (3 to 2000 characters) admitted the request:
texts that strip to the empty string are rejected with status 400 before
the classification engine is consulted. The engine is a parameter so that
its non-invocation on the rejecting branch is expressible; in the
application it is Classifier.classify, whose model is total, so the
500-on-exception wrapper of the handler has no reachable model. -/
def classify_text (engine : String → ClassificationResponse) (text : String) : EndpointResult :=
  if pyStrip text.data = [] then
    .httpError 400 "O texto da mensagem não pode estar vazio."
  else
    .ok (engine text)

/-- Upper-case mapping on Unicode code points, as performed by Python
str.upper. It agrees with Python on every code point below 256 (these are
exactly the non-identity cases there: a-z, à-þ except the division sign,
ÿ to Ÿ, the sharp s ß whose Python upper case is the two-letter string
SS, and the micro sign µ whose Python upper case is the Greek capital Μ,
code point 924) and additionally on the dotless ı (code point 305, upper
case I) and the long s ſ (code point 383, upper case S); every other code
point is left unchanged, so outside these ranges it is NOT faithful to
Python str.upper. -/
def upperCodes (n : Nat) : List Nat :=
  if n = 223 then [83, 83]
  else if n = 181 then [924]
  else if n = 305 then [73]
  else if n = 383 then [83]
  else if 97 ≤ n ∧ n ≤ 122 then [n - 32]
  else if (224 ≤ n ∧ n ≤ 254) ∧ n ≠ 247 then [n - 32]
  else if n = 255 then [376]
  else [n]

/-- Model of Python str.upper on the underlying character list, through
upperCodes: exact for texts of code points below 256, and inheriting the
scope caveat of upperCodes beyond them. -/
def pyUpper (l : List Char) : List Char :=
  (l.map (fun c => (upperCodes c.toNat).map Char.ofNat)).flatten

/-! Auxiliary lemmas shared by the claim theorems. -/

lemma leadsList_self_append (p t : List Char) : leadsList p (p ++ t) = true := by
  induction p with
  | nil => rfl
  | cons a as ih => simp [leadsList, ih]

lemma isSubstr_of_append (s p t : List Char) : isSubstr p (s ++ (p ++ t)) = true := by
  induction s with
  | nil =>
      cases p with
      | nil =>
          cases t with
          | nil => rfl
          | cons b bs => simp [isSubstr, leadsList]
      | cons a as =>
          simp only [List.nil_append, isSubstr, Bool.or_eq_true]
          exact Or.inl (leadsList_self_append (a :: as) t)
  | cons a as ih => simp [isSubstr, ih]

lemma le_foldr_max (l : List Nat) (x : Nat) (h : x ∈ l) : x ≤ l.foldr max 0 := by
  induction l with
  | nil => cases h
  | cons a as ih =>
      rcases List.mem_cons.mp h with rfl | h2
      · exact Nat.le_max_left _ _
      · exact Nat.le_trans (ih h2) (Nat.le_max_right _ _)

lemma foldr_max_eq_zero (l : List Nat) (h : ∀ x ∈ l, x = 0) : l.foldr max 0 = 0 := by
  induction l with
  | nil => rfl
  | cons a as ih =>
      have ha := h a (List.mem_cons_self a as)
      have := ih (fun x hx => h x (List.mem_cons_of_mem a hx))
      simp [ha, this]

lemma scanFrom_snd (tl : List Char) :
    ∀ (kb : List (CategoryEnum × List String)) (acc : CategoryEnum × Nat),
      (scanFrom tl kb acc).2 = max acc.2 (maxScore tl kb) := by
  intro kb
  induction kb with
  | nil => intro acc; simp [scanFrom, maxScore]
  | cons p kb ih =>
      intro acc
      simp only [scanFrom]
      rw [ih]
      have hstep : (if acc.2 < countMatches p.2 tl then (p.1, countMatches p.2 tl) else acc).2
          = max acc.2 (countMatches p.2 tl) := by
        by_cases h : acc.2 < countMatches p.2 tl
        · simp [h, Nat.max_eq_right (Nat.le_of_lt h)]
        · simp [h, Nat.max_eq_left (Nat.le_of_not_lt h)]
      rw [hstep]
      show max (max acc.2 (countMatches p.2 tl)) (maxScore tl kb)
          = max acc.2 (maxScore tl (p :: kb))
      have : maxScore tl (p :: kb) = max (countMatches p.2 tl) (maxScore tl kb) := rfl
      rw [this, Nat.max_assoc]

lemma scanFrom_mono (tl : List Char) (kb : List (CategoryEnum × List String))
    (acc : CategoryEnum × Nat) : acc.2 ≤ (scanFrom tl kb acc).2 := by
  rw [scanFrom_snd]
  exact Nat.le_max_left _ _

lemma scanFrom_stable (tl : List Char) :
    ∀ (kb : List (CategoryEnum × List String)) (acc : CategoryEnum × Nat),
      (scanFrom tl kb acc).2 = acc.2 → scanFrom tl kb acc = acc := by
  intro kb
  induction kb with
  | nil => intro acc _; rfl
  | cons p kb ih =>
      intro acc h
      simp only [scanFrom] at h ⊢
      by_cases hm : acc.2 < countMatches p.2 tl
      · rw [if_pos hm] at h
        have hmono := scanFrom_mono tl kb (p.1, countMatches p.2 tl)
        rw [h] at hmono
        exact absurd (Nat.lt_of_lt_of_le hm hmono) (Nat.lt_irrefl _)
      · rw [if_neg hm] at h ⊢
        exact ih acc h

lemma scanFrom_find (tl : List Char) :
    ∀ (kb : List (CategoryEnum × List String)) (acc : CategoryEnum × Nat),
      acc.2 < (scanFrom tl kb acc).2 →
      (kb.find? (fun p => countMatches p.2 tl == (scanFrom tl kb acc).2)).map Prod.fst
        = some (scanFrom tl kb acc).1 := by
  intro kb
  induction kb with
  | nil => intro acc h; exact absurd h (Nat.lt_irrefl _)
  | cons p kb ih =>
      intro acc h
      simp only [scanFrom] at h ⊢
      by_cases hm : acc.2 < countMatches p.2 tl
      · rw [if_pos hm] at h ⊢
        by_cases hF : countMatches p.2 tl < (scanFrom tl kb (p.1, countMatches p.2 tl)).2
        · have hfalse : (countMatches p.2 tl == (scanFrom tl kb (p.1, countMatches p.2 tl)).2) = false := by
            simp only [beq_eq_false_iff_ne]
            exact Nat.ne_of_lt hF
          rw [List.find?_cons]
          simp only [hfalse]
          exact ih (p.1, countMatches p.2 tl) hF
        · have hmono := scanFrom_mono tl kb (p.1, countMatches p.2 tl)
          have heq : (scanFrom tl kb (p.1, countMatches p.2 tl)).2 = countMatches p.2 tl :=
            Nat.le_antisymm (Nat.le_of_not_lt hF) hmono
          have hst := scanFrom_stable tl kb (p.1, countMatches p.2 tl) heq
          rw [hst]
          have htrue : (countMatches p.2 tl == countMatches p.2 tl) = true := by simp
          rw [List.find?_cons]
          simp only [htrue]
          rfl
      · rw [if_neg hm] at h ⊢
        have hfalse : (countMatches p.2 tl == (scanFrom tl kb acc).2) = false := by
          simp only [beq_eq_false_iff_ne]
          have h1 : countMatches p.2 tl ≤ acc.2 := Nat.le_of_not_lt hm
          omega
        rw [List.find?_cons]
        simp only [hfalse]
        exact ih acc h

lemma char_toNat_ofNat_valid (n : Nat) (h : n < 55296) : (Char.ofNat n).toNat = n := by
  have hv : n.isValidChar := Or.inl h
  rw [Char.ofNat, dif_pos hv]
  rfl

lemma char_eq_of_toNat (c : Char) (m : Nat) (h : c.toNat = m) : c = Char.ofNat m := by
  have := Char.ofNat_toNat c
  rw [h] at this
  exact this.symm

lemma upperCodes_map_lower (c : Char) (h1 : c.toNat < 256) (h2 : c ≠ 'ß') (h3 : c ≠ 'µ') :
    ((upperCodes c.toNat).map Char.ofNat).map pyCharLower = [pyCharLower c] := by
  have hn223 : c.toNat ≠ 223 := fun hh =>
    h2 ((char_eq_of_toNat c 223 hh).trans (by decide))
  have hn181 : c.toNat ≠ 181 := fun hh =>
    h3 ((char_eq_of_toNat c 181 hh).trans (by decide))
  unfold upperCodes
  rw [if_neg hn223, if_neg hn181, if_neg (by omega : ¬c.toNat = 305),
    if_neg (by omega : ¬c.toNat = 383)]
  by_cases h1 : 97 ≤ c.toNat ∧ c.toNat ≤ 122
  · rw [if_pos h1]
    simp only [List.map_cons, List.map_nil]
    congr 1
    unfold pyCharLower
    rw [char_toNat_ofNat_valid (c.toNat - 32) (by omega)]
    congr 1
    unfold lowerCode
    split_ifs <;> omega
  · rw [if_neg h1]
    by_cases h2 : (224 ≤ c.toNat ∧ c.toNat ≤ 254) ∧ c.toNat ≠ 247
    · rw [if_pos h2]
      simp only [List.map_cons, List.map_nil]
      congr 1
      unfold pyCharLower
      rw [char_toNat_ofNat_valid (c.toNat - 32) (by omega)]
      congr 1
      unfold lowerCode
      split_ifs <;> omega
    · rw [if_neg h2]
      by_cases h3 : c.toNat = 255
      · rw [if_pos h3]
        simp only [List.map_cons, List.map_nil]
        congr 1
        unfold pyCharLower
        rw [char_toNat_ofNat_valid 376 (by omega)]
        congr 1
        unfold lowerCode
        split_ifs <;> omega
      · rw [if_neg h3]
        simp only [List.map_cons, List.map_nil]
        rw [Char.ofNat_toNat]

lemma pyLower_pyUpper (l : List Char) (h : ∀ c ∈ l, c.toNat < 256 ∧ c ≠ 'ß' ∧ c ≠ 'µ') :
    pyLower (pyUpper l) = pyLower l := by
  induction l with
  | nil => rfl
  | cons c l ih =>
      have hc := h c (List.mem_cons_self c l)
      have hl := ih (fun d hd => h d (List.mem_cons_of_mem c hd))
      have hsplit : pyUpper (c :: l) = (upperCodes c.toNat).map Char.ofNat ++ pyUpper l := by
        simp [pyUpper]
      simp only [pyLower] at hl ⊢
      rw [hsplit, List.map_append, upperCodes_map_lower c hc.1 hc.2.1 hc.2.2, hl]
      rfl

lemma pyStrip_eq_nil (l : List Char) (h : ∀ c ∈ l, isPySpace c = true) : pyStrip l = [] := by
  unfold pyStrip
  rw [List.dropWhile_eq_nil_iff.mpr h]
  rfl

lemma isSubstr_self_append (p t : List Char) : isSubstr p (p ++ t) = true :=
  isSubstr_of_append [] p t

/-- C1: for every input text and reason string, the heuristic classifier
scores each category of the Knowledge Base by the number of its trigger
terms contained in the lower-cased text (each term counted at most once),
every score is bounded by the maximal score, and whenever some category
scores above zero the returned category is the one of the first Knowledge
Base entry reaching the maximal score, so that a later category with a
merely equal score never overrides it. -/
theorem heuristic_picks_first_highest_score (text reason : String)
    (hpos : 0 < maxScore (pyLower text.data) KEYWORDS) :
    (∀ p ∈ KEYWORDS, countMatches p.2 (pyLower text.data) ≤ maxScore (pyLower text.data) KEYWORDS) ∧
    (KEYWORDS.find?
        (fun p => countMatches p.2 (pyLower text.data) == maxScore (pyLower text.data) KEYWORDS)).map
        Prod.fst
      = some (heuristic_classify text reason).category := by
  constructor
  · intro p hp
    exact le_foldr_max _ _ (List.mem_map.mpr ⟨p, hp, rfl⟩)
  · have hsnd := scanFrom_snd (pyLower text.data) KEYWORDS (CategoryEnum.OUTROS, 0)
    rw [Nat.zero_max] at hsnd
    have hlt : (0 : Nat) < (scanFrom (pyLower text.data) KEYWORDS (CategoryEnum.OUTROS, 0)).2 := by
      rw [hsnd]
      exact hpos
    have hfind := scanFrom_find (pyLower text.data) KEYWORDS (CategoryEnum.OUTROS, 0) hlt
    rw [hsnd] at hfind
    exact hfind

/-- Witness for C1 at the concrete input "boleto". -/
theorem heuristic_picks_first_highest_score_witness :
    0 < maxScore (pyLower ("boleto" : String).data) KEYWORDS ∧
    ((∀ p ∈ KEYWORDS,
        countMatches p.2 (pyLower ("boleto" : String).data)
          ≤ maxScore (pyLower ("boleto" : String).data) KEYWORDS) ∧
      (KEYWORDS.find?
          (fun p => countMatches p.2 (pyLower ("boleto" : String).data)
            == maxScore (pyLower ("boleto" : String).data) KEYWORDS)).map Prod.fst
        = some (heuristic_classify "boleto" "r").category) :=
  ⟨by decide, heuristic_picks_first_highest_score "boleto" "r" (by decide)⟩

/-- C2: the heuristic classifier is total over any string input (its model
is a total Lean function) and whenever every category scores zero the
returned category is Outros. -/
theorem heuristic_zero_matches_outros (text reason : String)
    (h : ∀ p ∈ KEYWORDS, countMatches p.2 (pyLower text.data) = 0) :
    (heuristic_classify text reason).category = CategoryEnum.OUTROS := by
  have hms : maxScore (pyLower text.data) KEYWORDS = 0 := by
    refine foldr_max_eq_zero _ ?_
    intro x hx
    rcases List.mem_map.mp hx with ⟨p, hp, rfl⟩
    exact h p hp
  have hsnd := scanFrom_snd (pyLower text.data) KEYWORDS (CategoryEnum.OUTROS, 0)
  rw [hms] at hsnd
  have hst := scanFrom_stable (pyLower text.data) KEYWORDS (CategoryEnum.OUTROS, 0)
    (by rw [hsnd]; rfl)
  show (scanFrom (pyLower text.data) KEYWORDS (CategoryEnum.OUTROS, 0)).1 = CategoryEnum.OUTROS
  rw [hst]

/-- Witness for C2 at the empty input string. -/
theorem heuristic_zero_matches_outros_witness :
    (∀ p ∈ KEYWORDS, countMatches p.2 (pyLower ("" : String).data) = 0) ∧
    (heuristic_classify "" "r").category = CategoryEnum.OUTROS :=
  ⟨by decide, heuristic_zero_matches_outros "" "r" (by decide)⟩

/-- C6: the heuristic result carries the fixed model identifier and the
fixed fallback strategy label, its reasoning string contains the
caller-supplied reason, and the reasoning reports the number of matched
terms, stating that no relevant term was identified when the count is
zero. -/
theorem heuristic_reasoning_and_tags (text reason : String) :
    (heuristic_classify text reason).model = "Keywords-Heuristic" ∧
    (heuristic_classify text reason).strategy = "Fallback-Heuristic" ∧
    isSubstr reason.data (heuristic_classify text reason).reasoning.data = true ∧
    (heuristic_classify text reason).reasoning =
      (if 0 < (scanFrom (pyLower text.data) KEYWORDS (CategoryEnum.OUTROS, 0)).2 then
        reason ++ " Identificados "
          ++ toString (scanFrom (pyLower text.data) KEYWORDS (CategoryEnum.OUTROS, 0)).2
          ++ " termos chave utilizando heurísticas."
      else
        reason ++ " Nenhum termo chave relevante identificado utilizando heurísticas.") := by
  refine ⟨rfl, rfl, ?_, rfl⟩
  show isSubstr reason.data
    ((if 0 < (scanFrom (pyLower text.data) KEYWORDS (CategoryEnum.OUTROS, 0)).2 then
        reason ++ " Identificados "
          ++ toString (scanFrom (pyLower text.data) KEYWORDS (CategoryEnum.OUTROS, 0)).2
          ++ " termos chave utilizando heurísticas."
      else
        reason ++ " Nenhum termo chave relevante identificado utilizando heurísticas.")).data = true
  by_cases hp : 0 < (scanFrom (pyLower text.data) KEYWORDS (CategoryEnum.OUTROS, 0)).2
  · rw [if_pos hp]
    simp only [String.data_append, List.append_assoc]
    exact isSubstr_self_append _ _
  · rw [if_neg hp]
    simp only [String.data_append, List.append_assoc]
    exact isSubstr_self_append _ _

/-- C8: on the concrete input about an appeal deadline, with the remote
credential absent, the classifier matches the Processual trigger terms
prazo and recurso (among others) and returns category Processual through
the heuristic fallback. -/
theorem heuristic_processual_scenario :
    (classify "" (RemoteOutcome.otherFailure "")
        "Qual o prazo para recurso de apelação neste processo?").category
      = CategoryEnum.PROCESSUAL ∧
    (classify "" (RemoteOutcome.otherFailure "")
        "Qual o prazo para recurso de apelação neste processo?").strategy
      = "Fallback-Heuristic" ∧
    ("prazo" : String) ∈ (KEYWORDS.lookup CategoryEnum.PROCESSUAL).getD [] ∧
    ("recurso" : String) ∈ (KEYWORDS.lookup CategoryEnum.PROCESSUAL).getD [] ∧
    isSubstr ("prazo" : String).data
      (pyLower ("Qual o prazo para recurso de apelação neste processo?" : String).data) = true ∧
    isSubstr ("recurso" : String).data
      (pyLower ("Qual o prazo para recurso de apelação neste processo?" : String).data) = true := by
  decide

lemma heuristic_reasoning_split (text reason : String) :
    ∃ suffix : String, (heuristic_classify text reason).reasoning = reason ++ suffix := by
  by_cases hp : 0 < (scanFrom (pyLower text.data) KEYWORDS (CategoryEnum.OUTROS, 0)).2
  · refine ⟨" Identificados "
      ++ toString (scanFrom (pyLower text.data) KEYWORDS (CategoryEnum.OUTROS, 0)).2
      ++ " termos chave utilizando heurísticas.", ?_⟩
    show (if 0 < (scanFrom (pyLower text.data) KEYWORDS (CategoryEnum.OUTROS, 0)).2 then
        reason ++ " Identificados "
          ++ toString (scanFrom (pyLower text.data) KEYWORDS (CategoryEnum.OUTROS, 0)).2
          ++ " termos chave utilizando heurísticas."
      else reason ++ " Nenhum termo chave relevante identificado utilizando heurísticas.") = _
    rw [if_pos hp]
    simp [String.append_assoc]
  · refine ⟨" Nenhum termo chave relevante identificado utilizando heurísticas.", ?_⟩
    show (if 0 < (scanFrom (pyLower text.data) KEYWORDS (CategoryEnum.OUTROS, 0)).2 then
        reason ++ " Identificados "
          ++ toString (scanFrom (pyLower text.data) KEYWORDS (CategoryEnum.OUTROS, 0)).2
          ++ " termos chave utilizando heurísticas."
      else reason ++ " Nenhum termo chave relevante identificado utilizando heurísticas.") = _
    rw [if_neg hp]

lemma heuristic_reasoning_contains (text s p t : String) :
    isSubstr p.data (heuristic_classify text (s ++ (p ++ t))).reasoning.data = true := by
  rcases heuristic_reasoning_split text (s ++ (p ++ t)) with ⟨suffix, hs⟩
  rw [hs]
  simp only [String.data_append, List.append_assoc]
  exact isSubstr_of_append s.data p.data (t.data ++ suffix.data)

lemma heuristic_reasoning_leads (text p t : String) :
    isSubstr p.data (heuristic_classify text (p ++ t)).reasoning.data = true := by
  rcases heuristic_reasoning_split text (p ++ t) with ⟨suffix, hs⟩
  rw [hs]
  simp only [String.data_append, List.append_assoc]
  exact isSubstr_self_append p.data (t.data ++ suffix.data)

/-- C3: with the remote credential configured, every failing remote
outcome is converted by the orchestrator into a successful heuristic
classification instead of propagating: an HTTP-status failure yields the
heuristic result whose reason cites the numeric status code, and any
other failure yields the heuristic result whose reason cites momentary
unavailability; both carry the fallback strategy label. -/
theorem classify_remote_failure_falls_back (key text : String) (code : Nat) (d : String)
    (hk : key ≠ "") :
    classify key (RemoteOutcome.httpStatusError code) text
        = heuristic_classify text ("Erro HTTP na IA (" ++ toString code ++ ").") ∧
    classify key (RemoteOutcome.otherFailure d) text
        = heuristic_classify text "Indisponibilidade momentânea da IA." ∧
    (classify key (RemoteOutcome.httpStatusError code) text).strategy = "Fallback-Heuristic" ∧
    (classify key (RemoteOutcome.otherFailure d) text).strategy = "Fallback-Heuristic" ∧
    isSubstr (toString code).data
      (classify key (RemoteOutcome.httpStatusError code) text).reasoning.data = true := by
  have h1 : classify key (RemoteOutcome.httpStatusError code) text
      = heuristic_classify text ("Erro HTTP na IA (" ++ toString code ++ ").") := by
    unfold classify
    rw [if_neg hk]
  have h2 : classify key (RemoteOutcome.otherFailure d) text
      = heuristic_classify text "Indisponibilidade momentânea da IA." := by
    unfold classify
    rw [if_neg hk]
  refine ⟨h1, h2, by rw [h1]; rfl, by rw [h2]; rfl, ?_⟩
  rw [h1, String.append_assoc]
  exact heuristic_reasoning_contains text "Erro HTTP na IA (" (toString code) ")."

/-- Witness for C3 at key k, status code 429 and a timeout-like failure. -/
theorem classify_remote_failure_falls_back_witness :
    ("k" : String) ≠ "" ∧
    (classify "k" (RemoteOutcome.httpStatusError 429) "texto"
        = heuristic_classify "texto" ("Erro HTTP na IA (" ++ toString 429 ++ ").") ∧
      classify "k" (RemoteOutcome.otherFailure "timeout") "texto"
        = heuristic_classify "texto" "Indisponibilidade momentânea da IA." ∧
      (classify "k" (RemoteOutcome.httpStatusError 429) "texto").strategy = "Fallback-Heuristic" ∧
      (classify "k" (RemoteOutcome.otherFailure "timeout") "texto").strategy
        = "Fallback-Heuristic" ∧
      isSubstr (toString 429).data
        (classify "k" (RemoteOutcome.httpStatusError 429) "texto").reasoning.data = true) :=
  ⟨by decide, classify_remote_failure_falls_back "k" "texto" 429 "timeout" (by decide)⟩

/-- C5: with the remote credential absent, the orchestrator returns the
heuristic result immediately, its outcome does not depend on the remote
call in any way, it carries the fallback strategy label, and its reason
states that the api key is not configured. -/
theorem classify_without_key_is_heuristic (text : String) (o1 o2 : RemoteOutcome) :
    classify "" o1 text
        = heuristic_classify text
            "API Key do Groq não configurada. Fallback com heurística local ativado." ∧
    classify "" o1 text = classify "" o2 text ∧
    (classify "" o1 text).strategy = "Fallback-Heuristic" ∧
    isSubstr ("API Key do Groq não configurada" : String).data
      (classify "" o1 text).reasoning.data = true := by
  have h1 : classify "" o1 text
      = heuristic_classify text
          "API Key do Groq não configurada. Fallback com heurística local ativado." := by
    unfold classify
    rw [if_pos rfl]
  have h2 : classify "" o2 text
      = heuristic_classify text
          "API Key do Groq não configurada. Fallback com heurística local ativado." := by
    unfold classify
    rw [if_pos rfl]
  refine ⟨h1, h1.trans h2.symm, by rw [h1]; rfl, ?_⟩
  rw [h1]
  rw [show ("API Key do Groq não configurada. Fallback com heurística local ativado." : String)
      = "API Key do Groq não configurada" ++ ". Fallback com heurística local ativado."
    from by decide]
  exact heuristic_reasoning_leads text "API Key do Groq não configurada"
    ". Fallback com heurística local ativado."

/-- C4: a successfully parsed remote response resolves its category by
case-insensitive exact match against the known labels; an unmatched or a
missing category string resolves to Outros without any failure, and every
parsed result is tagged with the remote model name and the remote
strategy label, not the heuristic fallback labels. -/
theorem groq_category_resolution :
    (∀ (s : String) (cat : CategoryEnum) (r : Option String),
        cat ∈ CategoryEnum.all → pyLowerStr s = pyLowerStr cat.value →
        (parseGroqContent (some s) r).category = cat) ∧
    (∀ (s : String) (r : Option String),
        (∀ cat ∈ CategoryEnum.all, pyLowerStr s ≠ pyLowerStr cat.value) →
        (parseGroqContent (some s) r).category = CategoryEnum.OUTROS) ∧
    (∀ r : Option String, (parseGroqContent none r).category = CategoryEnum.OUTROS) ∧
    (∀ c r : Option String,
        (parseGroqContent c r).model = GROQ_MODEL ∧
        (parseGroqContent c r).strategy = "LLM (Groq)" ∧
        (parseGroqContent c r).strategy ≠ "Fallback-Heuristic" ∧
        (parseGroqContent c r).model ≠ "Keywords-Heuristic") := by
  refine ⟨?_, ?_, ?_, ?_⟩
  · intro s cat r hmem heq
    show (CategoryEnum.all.find? (fun c => pyLowerStr c.value == pyLowerStr s)).getD
      CategoryEnum.OUTROS = cat
    simp only [heq]
    fin_cases hmem <;> decide
  · intro s r h
    show (CategoryEnum.all.find? (fun c => pyLowerStr c.value == pyLowerStr s)).getD
      CategoryEnum.OUTROS = CategoryEnum.OUTROS
    have hnone : CategoryEnum.all.find? (fun c => pyLowerStr c.value == pyLowerStr s) = none := by
      apply List.find?_eq_none.mpr
      intro c hc
      simp only [beq_iff_eq]
      exact fun hcc => (h c hc) hcc.symm
    rw [hnone]
    rfl
  · intro r
    show (CategoryEnum.all.find? (fun c => pyLowerStr c.value == pyLowerStr "Outros")).getD
      CategoryEnum.OUTROS = CategoryEnum.OUTROS
    decide
  · intro c r
    refine ⟨rfl, rfl, ?_, ?_⟩
    · show ("LLM (Groq)" : String) ≠ "Fallback-Heuristic"
      decide
    · show GROQ_MODEL ≠ "Keywords-Heuristic"
      decide

/-- Witness for C4 at the lower-case label financeiro, at the unknown
label Unknown, and at a missing category. -/
theorem groq_category_resolution_witness :
    (parseGroqContent (some "financeiro") none).category = CategoryEnum.FINANCEIRO ∧
    (parseGroqContent (some "Unknown") none).category = CategoryEnum.OUTROS ∧
    (parseGroqContent none none).category = CategoryEnum.OUTROS :=
  ⟨groq_category_resolution.1 "financeiro" CategoryEnum.FINANCEIRO none (by decide) (by decide),
   groq_category_resolution.2.1 "Unknown" none (by decide),
   groq_category_resolution.2.2.1 none⟩

/-- C7: the remote call sends one request whose system message is the
prompt template rendered with the comma-joined list of the six category
names, whose user message carries the raw input text, with temperature
0.2, the JSON-object response format, the single configured endpoint, the
bearer credential in the headers, a timeout of 8 seconds, and no retry. -/
theorem groq_request_shape (api_key text : String) :
    (buildGroqRequest api_key text).messages =
      [⟨"system", SYSTEM_PROMPT_TEMPLATE_rendered
          "Processual, Financeiro, Suporte Técnico, Comercial, Administrativo, Outros"⟩,
       ⟨"user", text⟩] ∧
    String.intercalate ", " (CategoryEnum.all.map CategoryEnum.value)
      = "Processual, Financeiro, Suporte Técnico, Comercial, Administrativo, Outros" ∧
    (buildGroqRequest api_key text).temperature = 1/5 ∧
    (buildGroqRequest api_key text).temperature < 1 ∧
    (buildGroqRequest api_key text).response_format_type = "json_object" ∧
    (buildGroqRequest api_key text).url = GROQ_URL ∧
    (buildGroqRequest api_key text).payload_model = GROQ_MODEL ∧
    (buildGroqRequest api_key text).headers
      = [("Authorization", "Bearer " ++ api_key), ("Content-Type", "application/json")] ∧
    (buildGroqRequest api_key text).timeout = 8 ∧
    groqRequestTrace api_key text = [buildGroqRequest api_key text] := by
  have hcats : String.intercalate ", " (CategoryEnum.all.map CategoryEnum.value)
      = "Processual, Financeiro, Suporte Técnico, Comercial, Administrativo, Outros" := by
    decide
  refine ⟨?_, hcats, ?_, ?_, rfl, rfl, rfl, rfl, rfl, rfl⟩
  case refine_2 =>
    show (0.2 : Rat) = 1/5
    norm_num
  case refine_3 =>
    show (0.2 : Rat) < 1
    norm_num
  show [(⟨"system", SYSTEM_PROMPT_TEMPLATE_rendered
      (String.intercalate ", " (CategoryEnum.all.map CategoryEnum.value))⟩ : GroqMessage),
    ⟨"user", text⟩] = _
  rw [hcats]

/-- C9 counterexample: the heuristic is not insensitive to letter case
for every case-variant pair. Python upper-cases the sharp s (ß) to the
two-letter sequence SS, so the fully upper-cased variant of the text
aceßo is ACESSO; the original scores zero matches and is classified
Outros, while its upper-cased variant matches the Suporte Técnico trigger
term acesso and is classified Suporte Técnico with one match. Even a
single-character upper-case mapping breaks the claim: Python upper-cases
the dotless ı to the ordinary I, so the upper-cased variant of juız is
JUIZ, classified Processual through the trigger term juiz while the
original is classified Outros with zero matches. -/
theorem heuristic_case_variant_counterexample :
    pyUpper ("aceßo" : String).data = ("ACESSO" : String).data ∧
    (heuristic_classify "aceßo" "r").category = CategoryEnum.OUTROS ∧
    (heuristic_classify "ACESSO" "r").category = CategoryEnum.SUPORTE ∧
    (scanFrom (pyLower ("aceßo" : String).data) KEYWORDS (CategoryEnum.OUTROS, 0)).2 = 0 ∧
    (scanFrom (pyLower ("ACESSO" : String).data) KEYWORDS (CategoryEnum.OUTROS, 0)).2 = 1 ∧
    pyUpper ("juız" : String).data = ("JUIZ" : String).data ∧
    (heuristic_classify "juız" "r").category = CategoryEnum.OUTROS ∧
    (heuristic_classify "JUIZ" "r").category = CategoryEnum.PROCESSUAL ∧
    (scanFrom (pyLower ("juız" : String).data) KEYWORDS (CategoryEnum.OUTROS, 0)).2 = 0 ∧
    (scanFrom (pyLower ("JUIZ" : String).data) KEYWORDS (CategoryEnum.OUTROS, 0)).2 = 1 := by
  decide

/-- C9 as amended: heuristic classification is insensitive to letter case
on the Basic Latin and Latin-1 ranges once the case-unstable characters
there are excluded. For every text whose characters all have code points
below 256 — the range on which the model of Python str.upper is exact —
and which contains neither ß (whose upper case expands to SS) nor µ
(whose upper case is the case-unstable Greek Μ), classifying the text and
classifying its upper-cased variant yield the same result, in particular
the same category and the same match count. Outside these ranges Python
has further such characters (ı, ſ, ligatures, final sigma, ...), which
this amendment leaves out of scope rather than claims safe. -/
theorem heuristic_case_insensitive_latin1 (text reason : String)
    (h : ∀ c ∈ text.data, c.toNat < 256 ∧ c ≠ 'ß' ∧ c ≠ 'µ') :
    heuristic_classify ⟨pyUpper text.data⟩ reason = heuristic_classify text reason ∧
    (scanFrom (pyLower (pyUpper text.data)) KEYWORDS (CategoryEnum.OUTROS, 0)).2
      = (scanFrom (pyLower text.data) KEYWORDS (CategoryEnum.OUTROS, 0)).2 := by
  have hlow := pyLower_pyUpper text.data h
  constructor
  · have hdata : (⟨pyUpper text.data⟩ : String).data = pyUpper text.data := rfl
    unfold heuristic_classify
    rw [hdata, hlow]
  · rw [hlow]

/-- Witness for the amended C9 at the input prazo. -/
theorem heuristic_case_insensitive_latin1_witness :
    (∀ c ∈ ("prazo" : String).data, c.toNat < 256 ∧ c ≠ 'ß' ∧ c ≠ 'µ') ∧
    (heuristic_classify ⟨pyUpper ("prazo" : String).data⟩ "r" = heuristic_classify "prazo" "r" ∧
      (scanFrom (pyLower (pyUpper ("prazo" : String).data)) KEYWORDS (CategoryEnum.OUTROS, 0)).2
        = (scanFrom (pyLower ("prazo" : String).data) KEYWORDS (CategoryEnum.OUTROS, 0)).2) :=
  ⟨by decide, heuristic_case_insensitive_latin1 "prazo" "r" (by decide)⟩

/-- C10: a request whose text consists only of whitespace, even within
the validated length bounds, is rejected by the endpoint handler with
HTTP status 400, and the outcome is the same whatever classification
engine is installed, so the engine is never consulted on such input. -/
theorem whitespace_only_rejected_400 (e1 e2 : String → ClassificationResponse) (text : String)
    (_hlen1 : 3 ≤ text.data.length) (_hlen2 : text.data.length ≤ 2000)
    (hws : ∀ c ∈ text.data, isPySpace c = true) :
    classify_text e1 text
        = EndpointResult.httpError 400 "O texto da mensagem não pode estar vazio." ∧
    classify_text e1 text = classify_text e2 text := by
  have hnil : pyStrip text.data = [] := pyStrip_eq_nil text.data hws
  constructor
  · unfold classify_text
    rw [if_pos hnil]
  · unfold classify_text
    rw [if_pos hnil, if_pos hnil]

/-- Witness for C10 at a three-space text. -/
theorem whitespace_only_rejected_400_witness :
    3 ≤ ("   " : String).data.length ∧ ("   " : String).data.length ≤ 2000 ∧
    (∀ c ∈ ("   " : String).data, isPySpace c = true) ∧
    (classify_text (fun t => heuristic_classify t "a") "   "
        = EndpointResult.httpError 400 "O texto da mensagem não pode estar vazio." ∧
      classify_text (fun t => heuristic_classify t "a") "   "
        = classify_text (fun t => heuristic_classify t "b") "   ") :=
  ⟨by decide, by decide, by decide,
    whitespace_only_rejected_400 (fun t => heuristic_classify t "a")
      (fun t => heuristic_classify t "b") "   " (by decide) (by decide) (by decide)⟩
